import Mathlib

/-!
# Verification of the `netcorehost` native context lifecycle and string layer

A shallow embedding of the core of the `netcorehost` crate:

* the hosting result-code taxonomy (`HostingResult`, `HostingSuccess`,
  `HostingError`) — the concrete decoder lives in `src/error/hosting.rs`,
  which is not part of the sources given here, so it is modelled from the
  spec (§6/§7): result codes are `i32` values, non-negative codes decode to
  success variants and negative codes to error variants, with a catch-all
  for unrecognised codes;
* the platform-dependent string types (`PdCString` / `PdCStr`,
  `src/pdcstring/shared.rs`), whose platform-specific internals
  (`windows.rs` / `other.rs`) are likewise modelled from the spec (§4.4);
* the hostfxr context (`HostfxrContext`, `src/hostfxr/context.rs`):
  the close lifecycle, the two-phase runtime-property protocol,
  `set`/`remove` property calls, `run_app` and `AppOrHostingResult`,
  `into_handle`, and the typestate discipline of the two context tags.

Native entry points are modelled as an oracle (`HostfxrLib`): an arbitrary
record of functions from the arguments the Rust code passes to the results
the native side may produce.  Every native invocation is recorded in an
explicit trace (`Trace`), which is threaded through the embedded
operations in exactly the order the Rust code performs the calls.
-/

/-- Interpret a hexadecimal `u32` bit pattern as the `i32` value the native
API actually returns (two's complement). -/
def i32OfBits (n : Nat) : Int :=
  if n < 2 ^ 31 then (n : Int) else (n : Int) - 2 ^ 32

/-- Modelled from the spec: the success variants of the native result-code
enumeration (`src/error/hosting.rs` is not among the given sources).  Per
§6, success variants are the codes ≥ 0, with specific meanings such as
"success, already initialized as secondary"; unrecognised non-negative
codes are kept as a catch-all. -/
inductive HostingSuccess
  | Success
  | HostAlreadyInitialized
  | DifferentRuntimeProperties
  | UnknownSuccessCode (code : Int)
  deriving DecidableEq, Repr

/-- Modelled from the spec: decoding of a non-negative native result code
into a `HostingSuccess` variant. -/
def HostingSuccess.from_code (code : Int) : HostingSuccess :=
  if code = 0 then .Success
  else if code = 1 then .HostAlreadyInitialized
  else if code = 2 then .DifferentRuntimeProperties
  else .UnknownSuccessCode code

/-- Modelled from the spec: the error variants of the native result-code
enumeration (`src/error/hosting.rs` is not among the given sources).  Per
§7 the kinds are: invalid argument, host library not found, buffer too
small, app already running, framework missing, incompatible config, and an
unknown/unrecognised catch-all.  Error variants are the negative codes
(§6). -/
inductive HostingError
  | InvalidArgFailure
  | HostLibMissingFailure
  | HostApiBufferTooSmall
  | AppAlreadyRunning
  | FrameworkMissingFailure
  | FrameworkCompatFailure
  | UnknownErrorCode (code : Int)
  deriving DecidableEq, Repr

/-- Modelled from the spec: decoding of a negative native result code into
a `HostingError` variant, using the fixed native code assignments. -/
def HostingError.from_code (code : Int) : HostingError :=
  if code = i32OfBits 0x80008081 then .InvalidArgFailure
  else if code = i32OfBits 0x80008082 then .HostLibMissingFailure
  else if code = i32OfBits 0x80008098 then .HostApiBufferTooSmall
  else if code = i32OfBits 0x80008084 then .AppAlreadyRunning
  else if code = i32OfBits 0x80008096 then .FrameworkMissingFailure
  else if code = i32OfBits 0x8000809C then .FrameworkCompatFailure
  else .UnknownErrorCode code

deriving instance DecidableEq for Except

/-- Modelled from the spec: `HostingResult` wraps the decoded form of a
native result code. -/
structure HostingResult where
  toResult : Except HostingError HostingSuccess
  deriving DecidableEq, Repr

/-- Modelled from the spec: `HostingResult::from(i32)` — non-negative
codes are success variants, negative codes are error variants (§6). -/
def HostingResult.from (code : Int) : HostingResult :=
  if 0 ≤ code then ⟨.ok (HostingSuccess.from_code code)⟩
  else ⟨.error (HostingError.from_code code)⟩

/-- Modelled from the spec: `HostingResult::into_result` exposes the
decoded success-or-error value. -/
def HostingResult.into_result (r : HostingResult) : Except HostingError HostingSuccess :=
  r.toResult

/-! ## Platform strings (`src/pdcstring`)

`shared.rs` delegates every operation to a platform-specific inner type
(`PdCStringInner` / `PdCStrInner`, from `windows.rs` or `other.rs`), which
is not among the given sources.  The inner type is therefore modelled from
the spec (§4.4): a nul-terminated sequence of platform code units (wide
16-bit units on one platform family, narrow 8-bit on others — abstracted
here as one `Nat` code unit per Unicode scalar value), never containing an
embedded nul.  Construction from text validates the absence of embedded
nul and fails with `ContainsNul`; strict decoding back to portable text
fails with `ToStringError` on invalid unit sequences. -/

/-- Modelled from the spec: the `ContainsNul` error condition — a platform
string construction was given text containing an embedded nul (§7). -/
structure ContainsNul : Type where
  deriving DecidableEq, Repr

/-- Modelled from the spec: the `ToStringError` error condition — a
platform string's units could not be decoded as strict portable text
(§7). -/
structure ToStringError : Type where
  deriving DecidableEq, Repr

/-- Modelled from the spec: the platform-specific backing storage of an
owned platform string — its sequence of code units, excluding the trailing
nul that the backing storage physically carries (§4.4). -/
structure PdCStringInnerImpl where
  units : List Nat
  deriving DecidableEq, Repr

/-- Modelled from the spec: encoding of portable text into platform code
units, abstracted as one code unit per Unicode scalar value. -/
def encodeUnits (s : String) : List Nat :=
  s.data.map Char.toNat

/-- Modelled from the spec: strict decoding of a single platform code unit
back into portable text; fails on units that are not valid scalar
values. -/
def decodeUnit (u : Nat) : Option Char :=
  if u.isValidChar then some (Char.ofNat u) else none

/-- Modelled from the spec: strict decoding of a platform code-unit
sequence back into portable text; fails if any unit is invalid. -/
def decodeUnits : List Nat → Option (List Char)
  | [] => some []
  | u :: us => do
    let c ← decodeUnit u
    let cs ← decodeUnits us
    pure (c :: cs)

/-- Modelled from the spec: `PdCStringInner::from_str` — validates the
absence of an embedded nul in the encoded text and fails with
`ContainsNul` if one is found (§4.4). -/
def PdCStringInner.from_str (s : String) : Except ContainsNul PdCStringInnerImpl :=
  if (encodeUnits s).contains 0 then .error ⟨⟩
  else .ok ⟨encodeUnits s⟩

/-- Modelled from the spec: platform-native "file path-like" text
(`OsStr`), abstracted as a sequence of platform code units. -/
abbrev OsStrModel : Type := List Nat

/-- Modelled from the spec: `PdCStringInner::from_os_str` — validates the
absence of an embedded nul in platform-native path-like text and fails
with `ContainsNul` if one is found (§4.4). -/
def PdCStringInner.from_os_str (s : OsStrModel) : Except ContainsNul PdCStringInnerImpl :=
  if s.contains 0 then .error ⟨⟩
  else .ok ⟨s⟩

/-- Modelled from the spec: the borrowed platform string slice's inner
representation shares the owned one's unit sequence. -/
def PdCStrInnerImpl : Type := PdCStringInnerImpl

/-- Modelled from the spec: `PdCStrInner::to_string` — strict conversion
of the unit sequence back to portable text, failing with a decoding-error
condition on invalid sequences (§4.4). -/
def PdCStrInner.to_string (p : PdCStrInnerImpl) : Except ToStringError String :=
  match decodeUnits (PdCStringInnerImpl.units p) with
  | some cs => .ok ⟨cs⟩
  | none => .error ⟨⟩

/-- `PdCString` (`shared.rs` line 17): the owned platform string, a
transparent wrapper around the platform-specific inner type. -/
structure PdCString where
  inner : PdCStringInnerImpl
  deriving DecidableEq, Repr

/-- `PdCString::from_inner` (`shared.rs` line 21). -/
def PdCString.from_inner (inner : PdCStringInnerImpl) : PdCString :=
  ⟨inner⟩

/-- `PdCString::from_str` (`shared.rs` lines 30–32): delegates to the
inner type's construction and wraps the result. -/
def PdCString.from_str (s : String) : Except ContainsNul PdCString :=
  (PdCStringInner.from_str s).map PdCString.from_inner

/-- `PdCString::from_os_str` (`shared.rs` lines 34–36): delegates to the
inner type's construction and wraps the result. -/
def PdCString.from_os_str (s : OsStrModel) : Except ContainsNul PdCString :=
  (PdCStringInner.from_os_str s).map PdCString.from_inner

/-- `PdCStr` (`shared.rs` line 58): the borrowed platform string slice, a
transparent wrapper around the inner slice type. -/
structure PdCStr where
  inner : PdCStringInnerImpl
  deriving DecidableEq, Repr

/-- `PdCStr::from_inner` (`shared.rs` line 62). -/
def PdCStr.from_inner (inner : PdCStrInnerImpl) : PdCStr :=
  ⟨inner⟩

/-- `Borrow<PdCStr> for PdCString` (`shared.rs` lines 120–124): borrowing
an owned platform string views the same inner representation. -/
def PdCString.borrow (s : PdCString) : PdCStr :=
  PdCStr.from_inner s.inner

/-- `PdCStr::to_string` (`shared.rs` lines 110–113): delegates strict
conversion to the inner slice type. -/
def PdCStr.to_string (s : PdCStr) : Except ToStringError String :=
  PdCStrInner.to_string s.inner

/-! ## The hostfxr context (`src/hostfxr/context.rs`)

Raw native pointers are modelled as `Nat`, with `0` playing the role of
the null pointer; `NonNull` is the subtype of non-zero values.  The native
entry-point table is an oracle `HostfxrLib`, and each embedded method
threads a `Trace` recording every native invocation in order. -/

/-- A raw native pointer (`hostfxr_handle`); `0` is the null pointer. -/
abbrev RawHandle : Type := Nat

/-- `HostfxrHandle` (`context.rs` lines 31–33): a `repr(transparent)`
wrapper around a `NonNull` pointer. -/
structure HostfxrHandle where
  ptr : { n : Nat // n ≠ 0 }
  deriving DecidableEq

/-- `HostfxrHandle::new_unchecked` (`context.rs` lines 41–43): wraps the
raw pointer via `NonNull::new_unchecked`; the caller must guarantee the
pointer is non-null. -/
def HostfxrHandle.new_unchecked (ptr : RawHandle) (h : ptr ≠ 0) : HostfxrHandle :=
  ⟨⟨ptr, h⟩⟩

/-- `HostfxrHandle::as_raw` (`context.rs` lines 46–48). -/
def HostfxrHandle.as_raw (handle : HostfxrHandle) : RawHandle :=
  handle.ptr.val

/-- The two marker types (`context.rs` lines 24 and 28) tagging how a
context was initialized. -/
inductive ContextType
  | forRuntimeConfig
  | forCommandLine
  deriving DecidableEq, Repr

/-- The result of one native `hostfxr_get_runtime_properties` call: the
`i32` result code, the count written through the count pointer, and the
buffer contents the native side wrote (one entry per slot index). -/
structure GetPropsOut where
  result : Int
  countOut : Nat
  keysWritten : Nat → PdCStr
  valuesWritten : Nat → PdCStr

/-- The native entry-point table, as an oracle: for each native function
the Rust code calls, an arbitrary mapping from the arguments passed to the
outcome produced.  `hostfxr_get_runtime_properties` takes `none` when
called with null buffers (and an uninitialized count), or `some c` when
called with buffers of capacity `c` and the count cell holding `c`. -/
structure HostfxrLib where
  hostfxr_close : Int
  hostfxr_set_runtime_property_value : PdCStr → Option PdCStr → Int
  hostfxr_get_runtime_properties : Option Nat → GetPropsOut
  hostfxr_run_app : Int

/-- The trace of native invocations made through a context, in order. -/
structure Trace where
  closeCalls : Nat
  setPropCalls : List (PdCStr × Option PdCStr)
  getPropsCalls : List (Option Nat)
  runAppCalls : Nat
  deriving DecidableEq

/-- `HostfxrContext` (`context.rs` lines 58–62): the non-null handle plus
the phantom tag `I`; the borrowed entry-point table is passed explicitly
to each operation. -/
structure HostfxrContext (I : ContextType) where
  handle : HostfxrHandle

/-- Rust's `ManuallyDrop` wrapper: a value whose drop glue is
suppressed. -/
structure ManuallyDrop (α : Type) where
  value : α

/-- Dropping a `ManuallyDrop` value runs no drop glue: the trace is
unchanged. -/
def ManuallyDrop.dropEffect {α : Type} (_ : ManuallyDrop α) (t : Trace) : Trace :=
  t

/-- `HostfxrContext::_close` (`context.rs` lines 366–369): one native
`hostfxr_close` call, its result decoded via
`HostingResult::from(..).into_result()`. -/
def HostfxrContext._close {I : ContextType} (_ : HostfxrContext I) (lib : HostfxrLib)
    (t : Trace) : Except HostingError HostingSuccess × Trace :=
  let result := lib.hostfxr_close
  let t := { t with closeCalls := t.closeCalls + 1 }
  ((HostingResult.from result).into_result, t)

/-- `HostfxrContext::close` (`context.rs` lines 360–363): consumes the
context, wraps it in `ManuallyDrop` (so its drop glue never runs), calls
`_close` once and returns its result. -/
def HostfxrContext.close {I : ContextType} (ctx : HostfxrContext I) (lib : HostfxrLib)
    (t : Trace) : Except HostingError HostingSuccess × Trace :=
  let this := ManuallyDrop.mk ctx
  let (r, t) := this.value._close lib t
  (r, this.dropEffect t)

/-- `impl Drop for HostfxrContext` (`context.rs` lines 383–387): the
automatic release path runs `_close` and discards its result
(`let _ = ...`). -/
def HostfxrContext.dropGlue {I : ContextType} (ctx : HostfxrContext I) (lib : HostfxrLib)
    (t : Trace) : Trace :=
  (ctx._close lib t).2

/-- `HostfxrContext::into_handle` (`context.rs` lines 88–91): consumes the
context, wraps it in `ManuallyDrop` (so its drop glue never runs), and
returns the underlying handle without any native call. -/
def HostfxrContext.into_handle {I : ContextType} (ctx : HostfxrContext I)
    (t : Trace) : HostfxrHandle × Trace :=
  let this := ManuallyDrop.mk ctx
  (this.value.handle, this.dropEffect t)

/-- `HostfxrContext::set_runtime_property_value` (`context.rs` lines
131–144): one native `hostfxr_set_runtime_property_value` call with the
value pointer present, its result decoded. -/
def HostfxrContext.set_runtime_property_value {I : ContextType} (_ : HostfxrContext I)
    (name value : PdCStr) (lib : HostfxrLib) (t : Trace) :
    Except HostingError HostingSuccess × Trace :=
  let result := lib.hostfxr_set_runtime_property_value name (some value)
  let t := { t with setPropCalls := t.setPropCalls ++ [(name, some value)] }
  ((HostingResult.from result).into_result, t)

/-- `HostfxrContext::remove_runtime_property_value` (`context.rs` lines
147–159): one native `hostfxr_set_runtime_property_value` call with
`ptr::null()` for the value, its result decoded. -/
def HostfxrContext.remove_runtime_property_value {I : ContextType} (_ : HostfxrContext I)
    (name : PdCStr) (lib : HostfxrLib) (t : Trace) :
    Except HostingError HostingSuccess × Trace :=
  let result := lib.hostfxr_set_runtime_property_value name none
  let t := { t with setPropCalls := t.setPropCalls ++ [(name, none)] }
  ((HostingResult.from result).into_result, t)

/-- `HostfxrContext::get_runtime_properties_ref` (`context.rs` lines
173–220): phase one calls the native enumeration with null buffers; an
`Ok(_)` or `Err(HostApiBufferTooSmall)` decode lets the protocol proceed,
any other error returns immediately.  Phase two allocates buffers of the
phase-one count, calls again, and on success reads exactly the count the
second call reported (`set_len(count)` after the call updated `count`). -/
def HostfxrContext.get_runtime_properties_ref {I : ContextType} (_ : HostfxrContext I)
    (lib : HostfxrLib) (t : Trace) :
    Except HostingError (List PdCStr × List PdCStr) × Trace :=
  -- get count
  let out1 := lib.hostfxr_get_runtime_properties none
  let t := { t with getPropsCalls := t.getPropsCalls ++ [none] }
  -- ignore buffer too small error as the first call is only to get the required buffer size.
  match (HostingResult.from out1.result).into_result with
  | .error HostingError.InvalidArgFailure => (.error HostingError.InvalidArgFailure, t)
  | .error HostingError.HostLibMissingFailure => (.error HostingError.HostLibMissingFailure, t)
  | .error HostingError.AppAlreadyRunning => (.error HostingError.AppAlreadyRunning, t)
  | .error HostingError.FrameworkMissingFailure => (.error HostingError.FrameworkMissingFailure, t)
  | .error HostingError.FrameworkCompatFailure => (.error HostingError.FrameworkCompatFailure, t)
  | .error (HostingError.UnknownErrorCode c) => (.error (HostingError.UnknownErrorCode c), t)
  | .ok _ | .error HostingError.HostApiBufferTooSmall =>
    -- get values / fill buffer
    let count := out1.countOut
    let out2 := lib.hostfxr_get_runtime_properties (some count)
    let t := { t with getPropsCalls := t.getPropsCalls ++ [some count] }
    match (HostingResult.from out2.result).into_result with
    | .error e => (.error e, t)
    | .ok _ =>
      let count := out2.countOut
      let keys := (List.range count).map out2.keysWritten
      let values := (List.range count).map out2.valuesWritten
      (.ok (keys, values), t)

/-- `AppOrHostingResult` (`context.rs` lines 390–391): a
`repr(transparent)` wrapper around the raw `i32` returned by
`hostfxr_run_app`. -/
structure AppOrHostingResult where
  raw : Int
  deriving DecidableEq, Repr

/-- `impl From<i32> for AppOrHostingResult` (`context.rs` lines
408–412). -/
def AppOrHostingResult.from (code : Int) : AppOrHostingResult :=
  ⟨code⟩

/-- `AppOrHostingResult::value` (`context.rs` lines 394–396): the raw
integer accessor. -/
def AppOrHostingResult.value (r : AppOrHostingResult) : Int :=
  r.raw

/-- `AppOrHostingResult::as_hosting_exit_code` (`context.rs` lines
397–399): the best-effort hosting-result decoder. -/
def AppOrHostingResult.as_hosting_exit_code (r : AppOrHostingResult) : HostingResult :=
  HostingResult.from r.raw

/-- `HostfxrContext::<InitializedForCommandLine>::run_app` (`context.rs`
lines 377–380): defined only on the command-line tag; consumes the
context, makes one native `hostfxr_run_app` call and wraps the raw
result. -/
def HostfxrContext.run_app (_ : HostfxrContext .forCommandLine) (lib : HostfxrLib)
    (t : Trace) : AppOrHostingResult × Trace :=
  let result := lib.hostfxr_run_app
  let t := { t with runAppCalls := t.runAppCalls + 1 }
  (AppOrHostingResult.from result, t)

/-! ## The typestate call discipline

Rust enforces two static facts about `HostfxrContext` values: methods
taking `self` (`close`, `into_handle`, `run_app`) consume the value, so no
further method can be invoked on it, and `run_app` exists only in the
`impl` block for the `InitializedForCommandLine` tag (`context.rs` line
372).  Both facts are read off the source signatures below, and the set of
method-call sequences Rust accepts on one context value is the inductive
`ValidCallSeq`. -/

/-- The public methods callable on a `HostfxrContext` value
(`context.rs`). -/
inductive CtxMethod
  | handleRef
  | intoHandle
  | getRuntimePropertyValue
  | setRuntimePropertyValue
  | removeRuntimePropertyValue
  | getRuntimeProperties
  | getRuntimeDelegate
  | getDelegateLoader
  | close
  | runApp
  deriving DecidableEq, Repr

/-- Whether the method's receiver is `self` (consuming) rather than
`&self`, read off the source signatures: `into_handle` (line 88), `close`
(line 360) and `run_app` (line 377) take `self`; all other methods take
`&self`. -/
def CtxMethod.consumesSelf : CtxMethod → Bool
  | .intoHandle => true
  | .close => true
  | .runApp => true
  | _ => false

/-- Whether the method is defined for a context with tag `I`: `run_app`
lives in the `impl HostfxrContext<'a, InitializedForCommandLine>` block
(`context.rs` line 372), every other method in the generic
`impl<'a, I> HostfxrContext<'a, I>` block (line 64). -/
def CtxMethod.definedFor (m : CtxMethod) (I : ContextType) : Bool :=
  match m with
  | .runApp => I = ContextType.forCommandLine
  | _ => true

/-- The method-call sequences Rust's ownership rules accept on a single
`HostfxrContext` value with tag `I`: borrowing methods may be chained,
and a consuming method (if any) must be the final call. -/
inductive ValidCallSeq : ContextType → List CtxMethod → Prop
  | nil {I : ContextType} : ValidCallSeq I []
  | borrow {I : ContextType} {m : CtxMethod} {ms : List CtxMethod}
      (hdef : m.definedFor I = true) (hb : m.consumesSelf = false)
      (hs : ValidCallSeq I ms) : ValidCallSeq I (m :: ms)
  | consume {I : ContextType} {m : CtxMethod}
      (hdef : m.definedFor I = true) (hc : m.consumesSelf = true) :
      ValidCallSeq I [m]

/-! ## Initialization (modelled from the spec)

The initialization functions live in `src/hostfxr/hostfxr.rs`, which is
not among the given sources; only `HostfxrHandle::new_unchecked` (the
wrapping step) is.  They are modelled from the spec (§4.1): a native init
call yields a result code and a raw pointer; an error code surfaces as a
`HostingError`; on a success code the pointer must be verified non-null
before being wrapped, and a null pointer despite a success code is a fatal
invariant violation (a panic, §7), never silently wrapped. -/

/-- The observable outcome of an initialization call: an error result, a
wrapped non-null handle, or a panic (fatal invariant violation). -/
inductive InitOutcome
  | err (e : HostingError)
  | ok (handle : HostfxrHandle)
  | fatalInvariantViolation
  deriving DecidableEq

/-- Modelled from the spec: an initialization function
(`src/hostfxr/hostfxr.rs` is not among the given sources).  It decodes
the native result code; on error it returns the `HostingError`, on
success it verifies the returned pointer is non-null and wraps it with
`HostfxrHandle::new_unchecked`, panicking if the pointer is null despite
the success code. -/
def initContextFromNative (result : Int) (ptr : RawHandle) : InitOutcome :=
  match (HostingResult.from result).into_result with
  | .error e => .err e
  | .ok _ =>
    if h : ptr = 0 then .fatalInvariantViolation
    else .ok (HostfxrHandle.new_unchecked ptr h)

/-! ## Theorems -/

/-- Decoding inverts encoding on a single scalar value: every `Char`'s
code unit is valid and decodes back to the same `Char`. -/
theorem decodeUnit_toNat (c : Char) : decodeUnit c.toNat = some c := by
  have hv : c.toNat.isValidChar := c.valid
  unfold decodeUnit
  rw [if_pos hv, Char.ofNat_toNat]

/-- Strict decoding inverts encoding on a whole scalar-value sequence. -/
theorem decodeUnits_map_toNat (l : List Char) :
    decodeUnits (l.map Char.toNat) = some l := by
  induction l with
  | nil => rfl
  | cons c cs ih => simp [decodeUnits, decodeUnit_toNat, ih]

/-- The encoded unit sequence contains the nul unit exactly when the text
contains a character of code point zero. -/
theorem zero_mem_encodeUnits (s : String) :
    0 ∈ encodeUnits s ↔ ∃ c ∈ s.data, c.toNat = 0 := by
  simp [encodeUnits]

/-- C7: for every string `s` without an embedded nul, constructing a
platform string via `PdCString::from_str(s)` succeeds, and strict
conversion back via `to_string()` returns `Ok(s)` (lossless
round-trip). -/
theorem pdcstring_from_str_to_string_round_trip (s : String)
    (hnul : ∀ c ∈ s.data, c.toNat ≠ 0) :
    ∃ p : PdCString, PdCString.from_str s = .ok p ∧ p.borrow.to_string = .ok s := by
  have hm : 0 ∉ encodeUnits s := by
    rw [zero_mem_encodeUnits s]
    rintro ⟨c, hcs, hc0⟩
    exact hnul c hcs hc0
  refine ⟨PdCString.from_inner ⟨encodeUnits s⟩, ?_, ?_⟩
  · simp [PdCString.from_str, PdCStringInner.from_str, Except.map, hm]
  · have hdec : decodeUnits (encodeUnits s) = some s.data :=
      decodeUnits_map_toNat s.data
    simp [PdCString.borrow, PdCString.from_inner, PdCStr.from_inner, PdCStr.to_string,
      PdCStrInner.to_string, hdec]

/-- Witness for C7 at the concrete string `"ok"`. -/
theorem pdcstring_from_str_to_string_round_trip_witness :
    (∀ c ∈ ("ok" : String).data, c.toNat ≠ 0) ∧
      ∃ p : PdCString, PdCString.from_str "ok" = .ok p ∧
        p.borrow.to_string = .ok "ok" :=
  ⟨by decide, pdcstring_from_str_to_string_round_trip "ok" (by decide)⟩

/-- C8: constructing a platform string from ordinary text
(`PdCString::from_str`) or from platform-native path-like text
(`PdCString::from_os_str`) fails with a `ContainsNul` error exactly when
the input contains an embedded nul, and succeeds otherwise. -/
theorem pdcstring_construction_validates_embedded_nul (s : String) (os : OsStrModel) :
    (PdCString.from_str s = .error ⟨⟩ ↔ ∃ c ∈ s.data, c.toNat = 0) ∧
    ((∃ p, PdCString.from_str s = .ok p) ↔ ∀ c ∈ s.data, c.toNat ≠ 0) ∧
    (PdCString.from_os_str os = .error ⟨⟩ ↔ 0 ∈ os) ∧
    ((∃ p, PdCString.from_os_str os = .ok p) ↔ 0 ∉ os) := by
  have hiff : (∀ c ∈ s.data, c.toNat ≠ 0) ↔ 0 ∉ encodeUnits s := by
    simp [zero_mem_encodeUnits s]
  refine ⟨?_, ?_, ?_, ?_⟩
  · rw [← zero_mem_encodeUnits s]
    by_cases hm : 0 ∈ encodeUnits s <;>
      simp [PdCString.from_str, PdCStringInner.from_str, Except.map, hm]
  · rw [hiff]
    by_cases hm : 0 ∈ encodeUnits s <;>
      simp [PdCString.from_str, PdCStringInner.from_str, Except.map, hm]
  · by_cases hm : 0 ∈ os <;>
      simp [PdCString.from_os_str, PdCStringInner.from_os_str, Except.map, hm]
  · by_cases hm : 0 ∈ os <;>
      simp [PdCString.from_os_str, PdCStringInner.from_os_str, Except.map, hm]

/-- C1: over a context handle's lifetime the native close operation runs
exactly once.  Explicit `close` makes exactly one native close call and
returns its decoded result, with the context's own drop glue suppressed by
`ManuallyDrop` inside `close` — so an explicit close followed by the
automatic release performs no second native close (the `+ 1` already
accounts for the whole lifetime).  A context going out of scope without an
explicit close runs the drop glue, which makes the same single native
close call and discards its result. -/
theorem close_invokes_native_close_exactly_once (I : ContextType)
    (ctx : HostfxrContext I) (lib : HostfxrLib) (t : Trace) :
    (ctx.close lib t).1 = (HostingResult.from lib.hostfxr_close).into_result ∧
    (ctx.close lib t).2.closeCalls = t.closeCalls + 1 ∧
    (ctx.dropGlue lib t).closeCalls = t.closeCalls + 1 ∧
    (ctx.close lib t).2 = (ctx.dropGlue lib t) :=
  ⟨rfl, rfl, rfl, rfl⟩

/-- C4: `remove_runtime_property_value(name)` makes exactly one native
call, to the same `hostfxr_set_runtime_property_value` entry point that
`set_runtime_property_value` uses, passing a null value pointer, and
returns that call's decoded result with no local caching; `set` differs
only in passing the value pointer. -/
theorem remove_runtime_property_is_null_valued_set (I : ContextType)
    (ctx : HostfxrContext I) (name value : PdCStr) (lib : HostfxrLib) (t : Trace) :
    ctx.remove_runtime_property_value name lib t =
      ((HostingResult.from (lib.hostfxr_set_runtime_property_value name none)).into_result,
       { t with setPropCalls := t.setPropCalls ++ [(name, none)] }) ∧
    ctx.set_runtime_property_value name value lib t =
      ((HostingResult.from (lib.hostfxr_set_runtime_property_value name (some value))).into_result,
       { t with setPropCalls := t.setPropCalls ++ [(name, some value)] }) :=
  ⟨rfl, rfl⟩

/-- C6: `AppOrHostingResult` preserves the raw native integer exactly —
`from(c).value() = c` for every code — and the same value exposes both the
raw accessor and the best-effort hosting decoder; `run_app` returns the
raw native result wrapped this way. -/
theorem app_or_hosting_result_preserves_raw_value :
    (∀ c : Int, (AppOrHostingResult.from c).value = c ∧
      (AppOrHostingResult.from c).as_hosting_exit_code = HostingResult.from c) ∧
    ∀ (ctx : HostfxrContext .forCommandLine) (lib : HostfxrLib) (t : Trace),
      (ctx.run_app lib t).1 = AppOrHostingResult.from lib.hostfxr_run_app :=
  ⟨fun _ => ⟨rfl, rfl⟩, fun _ _ _ => rfl⟩

/-- C10: `into_handle` consumes the context and returns its underlying
raw handle with the trace unchanged: no native close (or any other native
call) happens at the call, and since the context is wrapped in
`ManuallyDrop` inside `into_handle`, the automatic release path never
runs for it either — the returned trace is the lifetime's final trace. -/
theorem into_handle_transfers_ownership_without_close (I : ContextType)
    (ctx : HostfxrContext I) (t : Trace) :
    ctx.into_handle t = (ctx.handle, t) :=
  rfl

/-- C5: `run_app` is defined only on contexts tagged
`InitializedForCommandLine` (a runtime-config context has no `run_app`),
and it consumes the context, so no valid method-call sequence on a single
context value invokes `run_app` twice: on the runtime-config tag it never
appears, and on any tag it appears at most once. -/
theorem run_app_requires_command_line_and_consumes :
    CtxMethod.runApp.definedFor ContextType.forRuntimeConfig = false ∧
    ∀ (I : ContextType) (ms : List CtxMethod), ValidCallSeq I ms →
      (I = ContextType.forRuntimeConfig → CtxMethod.runApp ∉ ms) ∧
      ms.count CtxMethod.runApp ≤ 1 := by
  refine ⟨rfl, ?_⟩
  intro I ms h
  induction h with
  | nil =>
    exact ⟨fun _ => List.not_mem_nil _, by simp⟩
  | borrow hdef hb hs ih =>
    rename_i m ms'
    have hm : m ≠ CtxMethod.runApp := by
      intro he
      rw [he] at hb
      simp [CtxMethod.consumesSelf] at hb
    refine ⟨?_, ?_⟩
    · intro hI hmem
      rcases List.mem_cons.mp hmem with h1 | h2
      · exact hm h1.symm
      · exact ih.1 hI h2
    · rw [List.count_cons_of_ne (Ne.symm hm)]
      exact ih.2
  | consume hdef hc =>
    rename_i m
    refine ⟨?_, ?_⟩
    · intro hI hmem
      have hm : m = CtxMethod.runApp := (List.mem_singleton.mp hmem).symm
      rw [hm, hI] at hdef
      simp [CtxMethod.definedFor] at hdef
    · calc [m].count CtxMethod.runApp ≤ [m].length := List.count_le_length _ _
        _ = 1 := rfl

/-- Witness for C5: the sequence consisting of one `run_app` call on a
command-line context is valid, `run_app` does not occur on the
runtime-config tag, and it occurs at most once. -/
theorem run_app_requires_command_line_and_consumes_witness :
    ValidCallSeq ContextType.forCommandLine [CtxMethod.runApp] ∧
    ((ContextType.forCommandLine = ContextType.forRuntimeConfig →
        CtxMethod.runApp ∉ [CtxMethod.runApp]) ∧
      [CtxMethod.runApp].count CtxMethod.runApp ≤ 1) :=
  ⟨ValidCallSeq.consume (by decide) (by decide),
   run_app_requires_command_line_and_consumes.2 ContextType.forCommandLine
     [CtxMethod.runApp] (ValidCallSeq.consume (by decide) (by decide))⟩

/-- C2: in `get_runtime_properties_ref`, a "buffer too small" error from
the phase-one call (null buffers) is treated as success of phase one and
the protocol proceeds to the phase-two call, while any other error from
phase one makes the whole operation return that error immediately, with
no phase-two native call performed. -/
theorem get_runtime_properties_phase_one_error_routing (I : ContextType)
    (ctx : HostfxrContext I) (lib : HostfxrLib) (t : Trace) (e : HostingError)
    (h : (HostingResult.from
        (lib.hostfxr_get_runtime_properties none).result).into_result = .error e) :
    (e = HostingError.HostApiBufferTooSmall →
      (ctx.get_runtime_properties_ref lib t).2.getPropsCalls =
        t.getPropsCalls ++
          [none, some (lib.hostfxr_get_runtime_properties none).countOut]) ∧
    (e ≠ HostingError.HostApiBufferTooSmall →
      (ctx.get_runtime_properties_ref lib t).1 = .error e ∧
      (ctx.get_runtime_properties_ref lib t).2.getPropsCalls =
        t.getPropsCalls ++ [none]) := by
  constructor
  · intro he
    subst he
    simp only [HostfxrContext.get_runtime_properties_ref]
    rw [h]
    split
    all_goals try simp_all
    all_goals (split <;> simp)
  · intro hne
    simp only [HostfxrContext.get_runtime_properties_ref]
    rw [h]
    cases e <;> simp_all

/-- C3: when `get_runtime_properties_ref` succeeds, the keys vector and
the values vector each have exactly the length reported by the phase-two
native call (the count as updated by the second call), hence equal
lengths; the phase-one count never sizes the final result, even when the
phase-two count differs from it. -/
theorem get_runtime_properties_sized_by_phase_two (I : ContextType)
    (ctx : HostfxrContext I) (lib : HostfxrLib) (t : Trace)
    (keys values : List PdCStr)
    (h : (ctx.get_runtime_properties_ref lib t).1 = .ok (keys, values)) :
    keys.length =
      (lib.hostfxr_get_runtime_properties
        (some (lib.hostfxr_get_runtime_properties none).countOut)).countOut ∧
    values.length =
      (lib.hostfxr_get_runtime_properties
        (some (lib.hostfxr_get_runtime_properties none).countOut)).countOut ∧
    keys.length = values.length := by
  simp only [HostfxrContext.get_runtime_properties_ref] at h
  split at h <;> try simp at h
  all_goals (
    split at h <;> simp at h
    obtain ⟨hk, hv⟩ := h
    subst hk
    subst hv
    simp)

/-- A concrete platform string (`"a"`) used by the concrete witnesses. -/
def witStr : PdCStr :=
  ⟨⟨[97]⟩⟩

/-- A concrete non-null context handle used by the concrete witnesses. -/
def witHandle : HostfxrHandle :=
  ⟨⟨1, by decide⟩⟩

/-- A concrete runtime-config context used by the concrete witnesses. -/
def witCtx : HostfxrContext ContextType.forRuntimeConfig :=
  ⟨witHandle⟩

/-- The empty native-call trace used by the concrete witnesses. -/
def witTrace : Trace :=
  ⟨0, [], [], 0⟩

/-- A concrete native entry-point table: the phase-one property call
reports "buffer too small" with count 3, the phase-two call succeeds but
reports the updated count 2 (as after a concurrent mutation). -/
def witLib : HostfxrLib where
  hostfxr_close := 0
  hostfxr_set_runtime_property_value := fun _ _ => 0
  hostfxr_get_runtime_properties := fun arg =>
    match arg with
    | none => ⟨i32OfBits 0x80008098, 3, fun _ => witStr, fun _ => witStr⟩
    | some _ => ⟨0, 2, fun _ => witStr, fun _ => witStr⟩
  hostfxr_run_app := 42

/-- Witness for C2: with `witLib`, phase one decodes to the buffer-too-small
error and the protocol proceeds to phase two. -/
theorem get_runtime_properties_phase_one_error_routing_witness :
    ((HostingResult.from
        (witLib.hostfxr_get_runtime_properties none).result).into_result =
      .error HostingError.HostApiBufferTooSmall) ∧
    ((HostingError.HostApiBufferTooSmall = HostingError.HostApiBufferTooSmall →
      (witCtx.get_runtime_properties_ref witLib witTrace).2.getPropsCalls =
        witTrace.getPropsCalls ++
          [none, some (witLib.hostfxr_get_runtime_properties none).countOut]) ∧
     (HostingError.HostApiBufferTooSmall ≠ HostingError.HostApiBufferTooSmall →
      (witCtx.get_runtime_properties_ref witLib witTrace).1 =
        .error HostingError.HostApiBufferTooSmall ∧
      (witCtx.get_runtime_properties_ref witLib witTrace).2.getPropsCalls =
        witTrace.getPropsCalls ++ [none])) :=
  ⟨by decide,
   get_runtime_properties_phase_one_error_routing ContextType.forRuntimeConfig
     witCtx witLib witTrace HostingError.HostApiBufferTooSmall (by decide)⟩

/-- Witness for C3: with `witLib` (phase one reports count 3, phase two
reports count 2), the result holds exactly 2 entries per vector. -/
theorem get_runtime_properties_sized_by_phase_two_witness :
    ((witCtx.get_runtime_properties_ref witLib witTrace).1 =
      .ok ([witStr, witStr], [witStr, witStr])) ∧
    ([witStr, witStr].length =
      (witLib.hostfxr_get_runtime_properties
        (some (witLib.hostfxr_get_runtime_properties none).countOut)).countOut ∧
     [witStr, witStr].length =
      (witLib.hostfxr_get_runtime_properties
        (some (witLib.hostfxr_get_runtime_properties none).countOut)).countOut ∧
     [witStr, witStr].length = [witStr, witStr].length) :=
  ⟨by decide,
   get_runtime_properties_sized_by_phase_two ContextType.forRuntimeConfig
     witCtx witLib witTrace [witStr, witStr] [witStr, witStr] (by decide)⟩

/-- C9: when an initialization call returns a success result code, the
returned native pointer is checked: a non-null pointer is wrapped (via
`new_unchecked`) into a handle exposing exactly that pointer, while a
null pointer despite the success code produces the fatal
invariant-violation outcome — never a silently wrapped handle and never
an ordinary error. -/
theorem init_success_verifies_nonnull_handle (result : Int) (ptr : RawHandle)
    (hsucc : ((HostingResult.from result).into_result).isOk = true) :
    (ptr = 0 → initContextFromNative result ptr = .fatalInvariantViolation) ∧
    (∀ h : ptr ≠ 0,
      initContextFromNative result ptr = .ok (HostfxrHandle.new_unchecked ptr h) ∧
      (HostfxrHandle.new_unchecked ptr h).as_raw = ptr) := by
  unfold initContextFromNative
  cases hd : (HostingResult.from result).into_result with
  | error e =>
    rw [hd] at hsucc
    simp [Except.isOk, Except.toBool] at hsucc
  | ok s =>
    refine ⟨?_, ?_⟩
    · intro h0
      simp [h0]
    · intro hne
      simp [hne, HostfxrHandle.new_unchecked, HostfxrHandle.as_raw]

/-- Witness for C9 at the success code `0` and the non-null pointer
`1`. -/
theorem init_success_verifies_nonnull_handle_witness :
    (((HostingResult.from 0).into_result).isOk = true) ∧
    (((1 : RawHandle) = 0 →
        initContextFromNative 0 1 = .fatalInvariantViolation) ∧
     (∀ h : (1 : RawHandle) ≠ 0,
        initContextFromNative 0 1 = .ok (HostfxrHandle.new_unchecked 1 h) ∧
        (HostfxrHandle.new_unchecked 1 h).as_raw = 1)) :=
  ⟨by decide, init_success_verifies_nonnull_handle 0 1 (by decide)⟩
